import Mathlib

/-!
# Shallow embedding of the ERCP basic example firmware router

This file embeds the command router of the ERCP basic example firmware
(`src/src/lib.rs`) in Lean 4 and proves the testable properties stated in
its specification.

The device exposes a Drivable Resource Set (an LED output line and an
unsigned 8-bit counter) behind a fixed command table.  The router
(`CustomRouter::route`) matches a command identifier against that table,
invokes a handler, and produces at most one reply.  Replies, commands and
the checked u8 arithmetic of the handlers are embedded faithfully; the
external protocol crate (`ercp_basic`) is modelled only at its interface
boundary, as the specification prescribes.

Machine integers are embedded as `Nat` with explicit `≤ 255` bounds where
the Rust `u8` type would enforce them.
-/

/-- Rx buffer size, `RX_MAX_LEN` in the source. -/
def RX_MAX_LEN : Nat := 255

/-- Tx buffer size, `TX_MAX_LEN` in the source. -/
def TX_MAX_LEN : Nat := 255

/-- Command code `LED_ON` (`0x20`, output-assert). -/
def LED_ON : Nat := 0x20

/-- Command code `LED_OFF` (`0x21`, output-deassert). -/
def LED_OFF : Nat := 0x21

/-- Command code `COUNTER_GET` (`0x30`). -/
def COUNTER_GET : Nat := 0x30

/-- Command code `COUNTER_GET_REPLY` (`0x31`). -/
def COUNTER_GET_REPLY : Nat := 0x31

/-- Command code `COUNTER_SET` (`0x32`). -/
def COUNTER_SET : Nat := 0x32

/-- Command code `COUNTER_INC` (`0x33`). -/
def COUNTER_INC : Nat := 0x33

/-- Command code `COUNTER_DEC` (`0x34`). -/
def COUNTER_DEC : Nat := 0x34

/-- NACK reason `OUT_OF_BOUNDS` (`0xFF` in the source). -/
def OUT_OF_BOUNDS : Nat := 0xFF

/-- Modelled from the spec: the invalid-arguments reason code belongs to the
external Protocol Engine's shared reason-code table (`ercp_basic`'s
`nack_reason::INVALID_ARGUMENTS`), which is not part of this repository.
The claims use it only symbolically; we fix a placeholder value distinct
from the device-owned `OUT_OF_BOUNDS` code. -/
def INVALID_ARGUMENTS : Nat := 0x10

/-- Modelled from the spec: the unknown-command reason code used by the
Protocol Engine's default routes for unmatched identifiers; its numeric
value belongs to the external protocol crate and the claims use it only
symbolically. -/
def UNKNOWN_COMMAND : Nat := 0x03

/-- The list of command identifiers handled by this device's own table
(the six device-specific match arms of `CustomRouter::route`). -/
def deviceCodes : List Nat :=
  [LED_ON, LED_OFF, COUNTER_GET, COUNTER_SET, COUNTER_INC, COUNTER_DEC]

/-- An ERCP command: a one-byte identifier (`code`) and a byte payload
(`value`).  The Rust `Command` also stores a `length` field with the
invariant `length == value.len()`; we expose it as a derived accessor. -/
structure Command where
  code : Nat
  value : List Nat
deriving DecidableEq, Repr

/-- `Command::length()`, equal to the payload length by the type's
invariant. -/
def Command.length (c : Command) : Nat := c.value.length

/-- Modelled from the spec: `Command::new` at the protocol boundary builds a
command from an identifier and a payload and fails when the payload is
longer than the maximum frame payload (255, spec §3: "a value payload
(byte sequence no longer than the maximum frame payload, here 255).
Invariant: `length == value.len()`"). -/
def Command.new (code : Nat) (value : List Nat) : Option Command :=
  if value.length ≤ 255 then some ⟨code, value⟩ else none

/-- Well-formedness of a command as the Rust types enforce it: the
identifier and every payload byte fit in a `u8`, and the payload length
fits in the length byte. -/
def Command.Wf (c : Command) : Prop :=
  c.code ≤ 255 ∧ c.value.length ≤ 255 ∧ ∀ b ∈ c.value, b ≤ 255

instance (c : Command) : Decidable c.Wf := by
  unfold Command.Wf
  exact inferInstance

/-- A reply handed back by the router.  In the source a reply is itself a
`Command`; the `ack!()` and `nack!(reason)` macros of the external protocol
crate build the positive and negative acknowledgement commands (whose wire
codes are out of scope, spec §1), while query-style replies are built
explicitly with `Command::new`.  We embed the three constructions
one-to-one. -/
inductive Reply where
  /-- A reply command built explicitly with `Command::new`, carrying its
  identifier and payload (e.g. the `COUNTER_GET_REPLY` query reply). -/
  | cmd (code : Nat) (value : List Nat) : Reply
  /-- The empty positive acknowledgement produced by `ack!()`. -/
  | ack : Reply
  /-- The negative acknowledgement with a one-byte reason produced by
  `nack!(reason)`. -/
  | nack (reason : Nat) : Reply
deriving DecidableEq, Repr

/-- Modelled from the spec: a reply is an acknowledgement unless it is a
negative acknowledgement (spec §3: a Reply is "either an acknowledgement
(no payload, or a payload for query-style replies such as 'counter value')
or a negative acknowledgement carrying a one-byte reason code"). -/
def Reply.isAck : Reply → Bool
  | .nack _ => false
  | _ => true

/-- The Drivable Resource Set: the board LED (`true` = asserted/high) and
the unsigned 8-bit counter. -/
structure DriveableResources where
  led : Bool
  counter : Nat
deriving DecidableEq, Repr

/-- `DriveableResources::new`: the resource set at startup, counter
initialised to 0. -/
def DriveableResources.new (led : Bool) : DriveableResources :=
  { led := led, counter := 0 }

/-- The custom router: a fixed-size scratch reply buffer, embedded as a
total function on indices below `TX_MAX_LEN` (the Rust `[u8; TX_MAX_LEN]`
array). -/
structure CustomRouter where
  buffer : Fin TX_MAX_LEN → Nat

/-- `CustomRouter::default()`: the buffer zero-initialised. -/
def CustomRouter.default : CustomRouter :=
  { buffer := fun _ => 0 }

/-- `u8::checked_add` on byte values: the sum when it fits in a `u8`,
`none` on overflow. -/
def checked_add (x y : Nat) : Option Nat :=
  if x + y ≤ 255 then some (x + y) else none

/-- `u8::checked_sub` on byte values: the difference when it does not
underflow, `none` otherwise. -/
def checked_sub (x y : Nat) : Option Nat :=
  if y ≤ x then some (x - y) else none

/-- `CustomRouter::led_on`: drives the line high and replies `ack!()`. -/
def CustomRouter.led_on (self : CustomRouter) (led : Bool) :
    CustomRouter × Bool × Option Reply :=
  (self, true, some .ack)

/-- `CustomRouter::led_off`: drives the line low and replies `ack!()`. -/
def CustomRouter.led_off (self : CustomRouter) (led : Bool) :
    CustomRouter × Bool × Option Reply :=
  (self, false, some .ack)

/-- `CustomRouter::counter_get`: writes the counter into `buffer[0]` and
replies with `Command::new(COUNTER_GET_REPLY, &self.buffer[0..1]).unwrap()`.
The `unwrap` of the source is embedded by the outer `Option`: `none` is
the panic case. -/
def CustomRouter.counter_get (self : CustomRouter) (counter : Nat) :
    Option (CustomRouter × Option Reply) :=
  let buffer := Function.update self.buffer ⟨0, by decide⟩ counter
  match Command.new COUNTER_GET_REPLY [buffer ⟨0, by decide⟩] with
  | some reply => some ({ buffer := buffer }, some (.cmd reply.code reply.value))
  | none => none

/-- `CustomRouter::counter_set`: when the payload length is exactly 1 the
counter becomes `command.value()[0]` and the reply is `ack!()`; otherwise
the reply is `nack!(INVALID_ARGUMENTS)` and the counter is untouched. -/
def CustomRouter.counter_set (self : CustomRouter) (command : Command)
    (counter : Nat) : CustomRouter × Nat × Option Reply :=
  if command.length = 1 then
    (self, command.value.getD 0 0, some .ack)
  else
    (self, counter, some (.nack INVALID_ARGUMENTS))

/-- `CustomRouter::counter_inc`: `counter.checked_add(1)`, updating on
`Some` with an `ack!()` reply and replying `nack!(OUT_OF_BOUNDS)` on
overflow. -/
def CustomRouter.counter_inc (self : CustomRouter) (counter : Nat) :
    CustomRouter × Nat × Option Reply :=
  match checked_add counter 1 with
  | some value => (self, value, some .ack)
  | none => (self, counter, some (.nack OUT_OF_BOUNDS))

/-- `CustomRouter::counter_dec`: `counter.checked_sub(1)`, updating on
`Some` with an `ack!()` reply and replying `nack!(OUT_OF_BOUNDS)` on
underflow. -/
def CustomRouter.counter_dec (self : CustomRouter) (counter : Nat) :
    CustomRouter × Nat × Option Reply :=
  match checked_sub counter 1 with
  | some value => (self, value, some .ack)
  | none => (self, counter, some (.nack OUT_OF_BOUNDS))

/-- Modelled from the spec: `Router::default_routes` is the Protocol
Engine's built-in handling (version query, description query, ping, reset,
and a NACK with the unknown-command reason for unmatched identifiers,
spec §4.1).  Its Rust signature `fn default_routes(&mut self, command:
Command) -> Option<Command>` has no access to the Drivable Resource Set,
which is the only behaviour the claims rely on; the reply is modelled as
the unknown-command NACK, the branch the claims exercise. -/
def CustomRouter.default_routes (self : CustomRouter) (command : Command) :
    CustomRouter × Option Reply :=
  (self, some (.nack UNKNOWN_COMMAND))

/-- `CustomRouter::route`: matches the command identifier against the
device table and falls through to the default routes.  The outer `Option`
propagates the (never taken) panic case of `counter_get`'s `unwrap`. -/
def CustomRouter.route (self : CustomRouter) (command : Command)
    (cx : DriveableResources) :
    Option (CustomRouter × DriveableResources × Option Reply) :=
  if command.code = LED_ON then
    match self.led_on cx.led with
    | (self, led, reply) => some (self, { cx with led := led }, reply)
  else if command.code = LED_OFF then
    match self.led_off cx.led with
    | (self, led, reply) => some (self, { cx with led := led }, reply)
  else if command.code = COUNTER_GET then
    match self.counter_get cx.counter with
    | some (self, reply) => some (self, cx, reply)
    | none => none
  else if command.code = COUNTER_SET then
    match self.counter_set command cx.counter with
    | (self, counter, reply) => some (self, { cx with counter := counter }, reply)
  else if command.code = COUNTER_INC then
    match self.counter_inc cx.counter with
    | (self, counter, reply) => some (self, { cx with counter := counter }, reply)
  else if command.code = COUNTER_DEC then
    match self.counter_dec cx.counter with
    | (self, counter, reply) => some (self, { cx with counter := counter }, reply)
  else
    match self.default_routes command with
    | (self, reply) => some (self, cx, reply)

/-- One dispatched command on the full system state (router plus Drivable
Resource Set), as the deferred processing task performs it. -/
def dispatch (s : CustomRouter × DriveableResources) (c : Command) :
    Option ((CustomRouter × DriveableResources) × Option Reply) :=
  match s.1.route c s.2 with
  | some (r, cx, reply) => some ((r, cx), reply)
  | none => none

/-- Run a sequence of commands from a state, collecting the replies;
`none` propagates the (never taken) panic case. -/
def runCommands (s : CustomRouter × DriveableResources) :
    List Command →
      Option ((CustomRouter × DriveableResources) × List (Option Reply))
  | [] => some (s, [])
  | c :: cs =>
    match dispatch s c with
    | some (s', reply) =>
      match runCommands s' cs with
      | some (sf, replies) => some (sf, reply :: replies)
      | none => none
    | none => none

/-- System states reachable from startup (fresh router, resource set with
counter 0) by dispatching any sequence of well-formed commands. -/
inductive Reachable (led0 : Bool) :
    CustomRouter × DriveableResources → Prop where
  | init : Reachable led0 (CustomRouter.default, DriveableResources.new led0)
  | step {s s' : CustomRouter × DriveableResources} {c : Command}
      {reply : Option Reply} : Reachable led0 s → Command.Wf c →
      dispatch s c = some (s', reply) → Reachable led0 s'

/-- The full effect each device handler is contracted to apply, following
the specification's handler-contract table (§4.1); identifiers outside the
device table have no contracted effect on the resource set. -/
def contractedEffect (c : Command) (cx : DriveableResources) :
    DriveableResources :=
  if c.code = LED_ON then { cx with led := true }
  else if c.code = LED_OFF then { cx with led := false }
  else if c.code = COUNTER_SET then { cx with counter := c.value.getD 0 0 }
  else if c.code = COUNTER_INC then { cx with counter := cx.counter + 1 }
  else if c.code = COUNTER_DEC then { cx with counter := cx.counter - 1 }
  else cx

/-! ## Characterisation of `route` per command identifier -/

theorem route_led_on (self : CustomRouter) (cx : DriveableResources)
    {c : Command} (hc : c.code = LED_ON) :
    self.route c cx = some (self, { cx with led := true }, some Reply.ack) := by
  simp [CustomRouter.route, CustomRouter.led_on, hc]

theorem route_led_off (self : CustomRouter) (cx : DriveableResources)
    {c : Command} (hc : c.code = LED_OFF) :
    self.route c cx = some (self, { cx with led := false }, some Reply.ack) := by
  simp [CustomRouter.route, CustomRouter.led_off, hc, LED_ON, LED_OFF]

theorem route_counter_get (self : CustomRouter) (cx : DriveableResources)
    {c : Command} (hc : c.code = COUNTER_GET) :
    self.route c cx = some
      ({ buffer := Function.update self.buffer ⟨0, by decide⟩ cx.counter }, cx,
        some (Reply.cmd COUNTER_GET_REPLY [cx.counter])) := by
  simp [CustomRouter.route, CustomRouter.counter_get, Command.new, hc,
    LED_ON, LED_OFF, COUNTER_GET, Function.update_same]

theorem route_counter_set_one (self : CustomRouter) (cx : DriveableResources)
    {c : Command} (hc : c.code = COUNTER_SET) (hlen : c.length = 1) :
    self.route c cx =
      some (self, { cx with counter := c.value.getD 0 0 }, some Reply.ack) := by
  simp [CustomRouter.route, CustomRouter.counter_set, hc, hlen,
    LED_ON, LED_OFF, COUNTER_GET, COUNTER_SET]

theorem route_counter_set_bad (self : CustomRouter) (cx : DriveableResources)
    {c : Command} (hc : c.code = COUNTER_SET) (hlen : c.length ≠ 1) :
    self.route c cx =
      some (self, cx, some (Reply.nack INVALID_ARGUMENTS)) := by
  simp [CustomRouter.route, CustomRouter.counter_set, hc, hlen,
    LED_ON, LED_OFF, COUNTER_GET, COUNTER_SET]

theorem route_counter_inc_lt (self : CustomRouter) (cx : DriveableResources)
    {c : Command} (hc : c.code = COUNTER_INC) (hlt : cx.counter < 255) :
    self.route c cx =
      some (self, { cx with counter := cx.counter + 1 }, some Reply.ack) := by
  have h : cx.counter + 1 ≤ 255 := hlt
  simp [CustomRouter.route, CustomRouter.counter_inc, checked_add, hc, h,
    LED_ON, LED_OFF, COUNTER_GET, COUNTER_SET, COUNTER_INC]

theorem route_counter_inc_max (self : CustomRouter) (cx : DriveableResources)
    {c : Command} (hc : c.code = COUNTER_INC) (hmax : 255 ≤ cx.counter) :
    self.route c cx = some (self, cx, some (Reply.nack OUT_OF_BOUNDS)) := by
  have h : ¬ (cx.counter + 1 ≤ 255) := by omega
  simp [CustomRouter.route, CustomRouter.counter_inc, checked_add, hc, h,
    LED_ON, LED_OFF, COUNTER_GET, COUNTER_SET, COUNTER_INC]

theorem route_counter_dec_pos (self : CustomRouter) (cx : DriveableResources)
    {c : Command} (hc : c.code = COUNTER_DEC) (hpos : 0 < cx.counter) :
    self.route c cx =
      some (self, { cx with counter := cx.counter - 1 }, some Reply.ack) := by
  have h : 1 ≤ cx.counter := hpos
  simp [CustomRouter.route, CustomRouter.counter_dec, checked_sub, hc, h,
    LED_ON, LED_OFF, COUNTER_GET, COUNTER_SET, COUNTER_INC, COUNTER_DEC]

theorem route_counter_dec_zero (self : CustomRouter) (cx : DriveableResources)
    {c : Command} (hc : c.code = COUNTER_DEC) (hzero : cx.counter = 0) :
    self.route c cx = some (self, cx, some (Reply.nack OUT_OF_BOUNDS)) := by
  have h : ¬ (1 ≤ cx.counter) := by omega
  simp [CustomRouter.route, CustomRouter.counter_dec, checked_sub, hc, h,
    LED_ON, LED_OFF, COUNTER_GET, COUNTER_SET, COUNTER_INC, COUNTER_DEC]

theorem route_default (self : CustomRouter) (cx : DriveableResources)
    {c : Command} (hc : c.code ∉ deviceCodes) :
    self.route c cx = some (self, cx, some (Reply.nack UNKNOWN_COMMAND)) := by
  simp only [deviceCodes, List.mem_cons, List.not_mem_nil, or_false, not_or] at hc
  obtain ⟨h1, h2, h3, h4, h5, h6⟩ := hc
  simp [CustomRouter.route, CustomRouter.default_routes, h1, h2, h3, h4, h5, h6]

/-- `route` never takes the panic branch of `counter_get`'s `unwrap`. -/
theorem route_isSome (self : CustomRouter) (c : Command)
    (cx : DriveableResources) : (self.route c cx).isSome = true := by
  unfold CustomRouter.route
  split_ifs <;>
    simp [CustomRouter.led_on, CustomRouter.led_off, CustomRouter.counter_get,
      CustomRouter.counter_set, CustomRouter.counter_inc,
      CustomRouter.counter_dec, CustomRouter.default_routes, Command.new,
      checked_add, checked_sub]

/-! ## Claims -/

/-- C1: dispatching Increment-counter (`0x33`) with the counter strictly
below 255 sets it to `counter + 1` and returns ACK, and with the counter
at 255 returns NACK(`0xFF`) leaving it unchanged; Decrement-counter
(`0x34`) with the counter strictly above 0 sets it to `counter - 1` and
returns ACK, and with the counter at 0 returns NACK(`0xFF`) leaving it
unchanged. -/
theorem C1_inc_dec_boundary (self : CustomRouter) (cx : DriveableResources)
    (c d : Command) (hc : c.code = COUNTER_INC) (hd : d.code = COUNTER_DEC) :
    (cx.counter < 255 → self.route c cx =
      some (self, { cx with counter := cx.counter + 1 }, some Reply.ack)) ∧
    (cx.counter = 255 → self.route c cx =
      some (self, cx, some (Reply.nack OUT_OF_BOUNDS))) ∧
    (0 < cx.counter → self.route d cx =
      some (self, { cx with counter := cx.counter - 1 }, some Reply.ack)) ∧
    (cx.counter = 0 → self.route d cx =
      some (self, cx, some (Reply.nack OUT_OF_BOUNDS))) :=
  ⟨fun h => route_counter_inc_lt self cx hc h,
   fun h => route_counter_inc_max self cx hc (le_of_eq h.symm),
   fun h => route_counter_dec_pos self cx hd h,
   fun h => route_counter_dec_zero self cx hd h⟩

/-- Witness for C1 at the counter values 255, 0 and 3. -/
theorem C1_inc_dec_boundary_witness :
    (CustomRouter.default.route ⟨COUNTER_INC, []⟩ ⟨false, 255⟩ =
      some (CustomRouter.default, ⟨false, 255⟩, some (Reply.nack OUT_OF_BOUNDS))) ∧
    (CustomRouter.default.route ⟨COUNTER_DEC, []⟩ ⟨false, 0⟩ =
      some (CustomRouter.default, ⟨false, 0⟩, some (Reply.nack OUT_OF_BOUNDS))) ∧
    (CustomRouter.default.route ⟨COUNTER_INC, []⟩ ⟨false, 3⟩ =
      some (CustomRouter.default, ⟨false, 4⟩, some Reply.ack)) ∧
    (CustomRouter.default.route ⟨COUNTER_DEC, []⟩ ⟨false, 3⟩ =
      some (CustomRouter.default, ⟨false, 2⟩, some Reply.ack)) :=
  ⟨(C1_inc_dec_boundary CustomRouter.default ⟨false, 255⟩
      ⟨COUNTER_INC, []⟩ ⟨COUNTER_DEC, []⟩ rfl rfl).2.1 rfl,
   (C1_inc_dec_boundary CustomRouter.default ⟨false, 0⟩
      ⟨COUNTER_INC, []⟩ ⟨COUNTER_DEC, []⟩ rfl rfl).2.2.2 rfl,
   (C1_inc_dec_boundary CustomRouter.default ⟨false, 3⟩
      ⟨COUNTER_INC, []⟩ ⟨COUNTER_DEC, []⟩ rfl rfl).1 (by decide),
   (C1_inc_dec_boundary CustomRouter.default ⟨false, 3⟩
      ⟨COUNTER_INC, []⟩ ⟨COUNTER_DEC, []⟩ rfl rfl).2.2.1 (by decide)⟩

/-- C2: dispatching Set-counter (`0x32`) with a payload of length other
than 1 returns NACK(invalid-arguments) and leaves the counter (indeed the
whole resource set) unchanged; with a one-byte payload `[v]` it sets the
counter to exactly `v` and returns an empty ACK. -/
theorem C2_counter_set_contract (self : CustomRouter)
    (cx : DriveableResources) (c : Command) (hc : c.code = COUNTER_SET) :
    (c.length ≠ 1 → self.route c cx =
      some (self, cx, some (Reply.nack INVALID_ARGUMENTS))) ∧
    (∀ v : Nat, v ≤ 255 → c.value = [v] → self.route c cx =
      some (self, { cx with counter := v }, some Reply.ack)) := by
  constructor
  · exact fun h => route_counter_set_bad self cx hc h
  · intro v hv hval
    have hlen : c.length = 1 := by simp [Command.length, hval]
    rw [route_counter_set_one self cx hc hlen, hval]
    simp

/-- Witness for C2 at payloads `[]` and `[42]`. -/
theorem C2_counter_set_contract_witness :
    (CustomRouter.default.route ⟨COUNTER_SET, []⟩ ⟨false, 7⟩ =
      some (CustomRouter.default, ⟨false, 7⟩, some (Reply.nack INVALID_ARGUMENTS))) ∧
    (CustomRouter.default.route ⟨COUNTER_SET, [42]⟩ ⟨false, 7⟩ =
      some (CustomRouter.default, ⟨false, 42⟩, some Reply.ack)) :=
  ⟨(C2_counter_set_contract CustomRouter.default ⟨false, 7⟩
      ⟨COUNTER_SET, []⟩ rfl).1 (by decide),
   (C2_counter_set_contract CustomRouter.default ⟨false, 7⟩
      ⟨COUNTER_SET, [42]⟩ rfl).2 42 (by decide) rfl⟩

/-- C6: dispatching Get-counter (`0x30`) returns the `COUNTER_GET_REPLY`
reply carrying the one-byte payload `[counter]`, leaves the resource set
unchanged, and that reply is a (positive) acknowledgement. -/
theorem C6_counter_get_reply (self : CustomRouter) (cx : DriveableResources)
    (c : Command) (hc : c.code = COUNTER_GET) :
    self.route c cx = some
      ({ buffer := Function.update self.buffer ⟨0, by decide⟩ cx.counter }, cx,
        some (Reply.cmd COUNTER_GET_REPLY [cx.counter])) ∧
    (Reply.cmd COUNTER_GET_REPLY [cx.counter]).isAck = true :=
  ⟨route_counter_get self cx hc, rfl⟩

/-- Witness for C6 at counter value 5. -/
theorem C6_counter_get_reply_witness :
    CustomRouter.default.route ⟨COUNTER_GET, []⟩ ⟨false, 5⟩ = some
      ({ buffer := Function.update CustomRouter.default.buffer ⟨0, by decide⟩ 5 },
        ⟨false, 5⟩, some (Reply.cmd COUNTER_GET_REPLY [5])) :=
  (C6_counter_get_reply CustomRouter.default ⟨false, 5⟩ ⟨COUNTER_GET, []⟩ rfl).1

/-- C10: dispatch of the device identifiers never panics: `route` is total
(never reaches the panic branch), and the `Command::new` inside
`counter_get` succeeds on every 1-byte payload, so its `unwrap` cannot
fail. -/
theorem C10_handlers_total (self : CustomRouter) (cx : DriveableResources)
    (c : Command) (hc : c.code ∈ deviceCodes) :
    (self.route c cx).isSome = true ∧
    ∀ b : Nat, (Command.new COUNTER_GET_REPLY [b]).isSome = true :=
  ⟨route_isSome self c cx, fun b => by simp [Command.new]⟩

/-- Witness for C10 at the Get-counter identifier. -/
theorem C10_handlers_total_witness :
    (CustomRouter.default.route ⟨COUNTER_GET, []⟩ ⟨false, 0⟩).isSome = true ∧
    ∀ b : Nat, (Command.new COUNTER_GET_REPLY [b]).isSome = true :=
  C10_handlers_total CustomRouter.default ⟨false, 0⟩ ⟨COUNTER_GET, []⟩
    (by decide)

/-- A well-formed command's first payload byte (the value `counter_set`
would store) fits in a `u8`. -/
theorem getD_le_of_wf {c : Command} (hwf : c.Wf) : c.value.getD 0 0 ≤ 255 := by
  cases hv : c.value with
  | nil => simp
  | cons a l =>
    have ha : a ≤ 255 := hwf.2.2 a (by rw [hv]; exact List.mem_cons_self a l)
    simpa using ha

/-- Dispatching one well-formed command preserves the `u8` bound on the
counter. -/
theorem dispatch_counter_le {s s' : CustomRouter × DriveableResources}
    {c : Command} {reply : Option Reply} (hwf : c.Wf)
    (h : dispatch s c = some (s', reply)) (hb : s.2.counter ≤ 255) :
    s'.2.counter ≤ 255 := by
  by_cases h1 : c.code = LED_ON
  · simp [dispatch, route_led_on s.1 s.2 h1] at h
    simp [← h.1, hb]
  by_cases h2 : c.code = LED_OFF
  · simp [dispatch, route_led_off s.1 s.2 h2] at h
    simp [← h.1, hb]
  by_cases h3 : c.code = COUNTER_GET
  · simp [dispatch, route_counter_get s.1 s.2 h3] at h
    simp [← h.1, hb]
  by_cases h4 : c.code = COUNTER_SET
  · by_cases hlen : c.length = 1
    · simp [dispatch, route_counter_set_one s.1 s.2 h4 hlen] at h
      obtain ⟨h', -⟩ := h
      subst h'
      simpa using getD_le_of_wf hwf
    · simp [dispatch, route_counter_set_bad s.1 s.2 h4 hlen] at h
      simp [← h.1, hb]
  by_cases h5 : c.code = COUNTER_INC
  · by_cases hlt : s.2.counter < 255
    · simp [dispatch, route_counter_inc_lt s.1 s.2 h5 hlt] at h
      have : s.2.counter + 1 ≤ 255 := hlt
      simp [← h.1, this]
    · have hge : 255 ≤ s.2.counter := by omega
      simp [dispatch, route_counter_inc_max s.1 s.2 h5 hge] at h
      simp [← h.1, hb]
  by_cases h6 : c.code = COUNTER_DEC
  · by_cases hpos : 0 < s.2.counter
    · simp [dispatch, route_counter_dec_pos s.1 s.2 h6 hpos] at h
      have : s.2.counter - 1 ≤ 255 := by omega
      simp [← h.1, this]
    · have hz : s.2.counter = 0 := by omega
      simp [dispatch, route_counter_dec_zero s.1 s.2 h6 hz] at h
      simp [← h.1, hb]
  have hout : c.code ∉ deviceCodes := by
    simp only [deviceCodes, List.mem_cons, List.not_mem_nil, or_false, not_or]
    exact ⟨h1, h2, h3, h4, h5, h6⟩
  simp [dispatch, route_default s.1 s.2 hout] at h
  simp [← h.1, hb]

/-- C3: every state reachable from startup (counter 0) by well-formed
commands keeps the counter within the `u8` range `0 ≤ counter ≤ 255`, and
the boundary operations do not wrap or clamp: an increment at 255 and a
decrement at 0 fail with NACK(out-of-bounds) and preserve the whole
state. -/
theorem C3_counter_invariant (led0 : Bool)
    (s : CustomRouter × DriveableResources) (h : Reachable led0 s) :
    s.2.counter ≤ 255 ∧
    (∀ c : Command, c.code = COUNTER_INC → s.2.counter = 255 →
      dispatch s c = some (s, some (Reply.nack OUT_OF_BOUNDS))) ∧
    (∀ c : Command, c.code = COUNTER_DEC → s.2.counter = 0 →
      dispatch s c = some (s, some (Reply.nack OUT_OF_BOUNDS))) := by
  refine ⟨?_, ?_, ?_⟩
  · induction h with
    | init => simp [DriveableResources.new]
    | step hr hwf hd ih => exact dispatch_counter_le hwf hd ih
  · intro c hc hmax
    simp [dispatch, route_counter_inc_max s.1 s.2 hc (le_of_eq hmax.symm)]
  · intro c hc hz
    simp [dispatch, route_counter_dec_zero s.1 s.2 hc hz]

/-- Witness for C3 at the initial state. -/
theorem C3_counter_invariant_witness :
    (CustomRouter.default, DriveableResources.new false).2.counter ≤ 255 :=
  (C3_counter_invariant false (CustomRouter.default, DriveableResources.new false)
    Reachable.init).1

/-- C4: a single dispatch is atomic: it either returns a positive
acknowledgement with the handler's full contracted effect applied, or
returns a NACK with the resource set (LED and counter both) entirely
unchanged; no partially mutated resource set is ever left behind. -/
theorem C4_atomic_dispatch (self : CustomRouter) (cx : DriveableResources)
    (c : Command) (r' : CustomRouter) (cx' : DriveableResources)
    (reply : Option Reply)
    (h : self.route c cx = some (r', cx', reply)) :
    (∃ rep, reply = some rep ∧ rep.isAck = true ∧
      cx' = contractedEffect c cx) ∨
    (∃ reason, reply = some (Reply.nack reason) ∧ cx' = cx) := by
  by_cases h1 : c.code = LED_ON
  · rw [route_led_on self cx h1] at h
    simp only [Option.some.injEq, Prod.mk.injEq] at h
    obtain ⟨-, hcx, hrep⟩ := h
    subst hcx; subst hrep
    exact Or.inl ⟨Reply.ack, rfl, rfl, by simp [contractedEffect, h1]⟩
  by_cases h2 : c.code = LED_OFF
  · rw [route_led_off self cx h2] at h
    simp only [Option.some.injEq, Prod.mk.injEq] at h
    obtain ⟨-, hcx, hrep⟩ := h
    subst hcx; subst hrep
    exact Or.inl ⟨Reply.ack, rfl, rfl,
      by simp [contractedEffect, h2, LED_ON, LED_OFF]⟩
  by_cases h3 : c.code = COUNTER_GET
  · rw [route_counter_get self cx h3] at h
    simp only [Option.some.injEq, Prod.mk.injEq] at h
    obtain ⟨-, hcx, hrep⟩ := h
    subst hcx; subst hrep
    exact Or.inl ⟨Reply.cmd COUNTER_GET_REPLY [cx.counter], rfl, rfl,
      by simp [contractedEffect, h3, LED_ON, LED_OFF, COUNTER_GET,
        COUNTER_SET, COUNTER_INC, COUNTER_DEC]⟩
  by_cases h4 : c.code = COUNTER_SET
  · by_cases hlen : c.length = 1
    · rw [route_counter_set_one self cx h4 hlen] at h
      simp only [Option.some.injEq, Prod.mk.injEq] at h
      obtain ⟨-, hcx, hrep⟩ := h
      subst hcx; subst hrep
      exact Or.inl ⟨Reply.ack, rfl, rfl,
        by simp [contractedEffect, h4, LED_ON, LED_OFF, COUNTER_SET]⟩
    · rw [route_counter_set_bad self cx h4 hlen] at h
      simp only [Option.some.injEq, Prod.mk.injEq] at h
      obtain ⟨-, hcx, hrep⟩ := h
      subst hcx; subst hrep
      exact Or.inr ⟨INVALID_ARGUMENTS, rfl, rfl⟩
  by_cases h5 : c.code = COUNTER_INC
  · by_cases hlt : cx.counter < 255
    · rw [route_counter_inc_lt self cx h5 hlt] at h
      simp only [Option.some.injEq, Prod.mk.injEq] at h
      obtain ⟨-, hcx, hrep⟩ := h
      subst hcx; subst hrep
      exact Or.inl ⟨Reply.ack, rfl, rfl,
        by simp [contractedEffect, h5, LED_ON, LED_OFF, COUNTER_SET,
          COUNTER_INC]⟩
    · have hge : 255 ≤ cx.counter := by omega
      rw [route_counter_inc_max self cx h5 hge] at h
      simp only [Option.some.injEq, Prod.mk.injEq] at h
      obtain ⟨-, hcx, hrep⟩ := h
      subst hcx; subst hrep
      exact Or.inr ⟨OUT_OF_BOUNDS, rfl, rfl⟩
  by_cases h6 : c.code = COUNTER_DEC
  · by_cases hpos : 0 < cx.counter
    · rw [route_counter_dec_pos self cx h6 hpos] at h
      simp only [Option.some.injEq, Prod.mk.injEq] at h
      obtain ⟨-, hcx, hrep⟩ := h
      subst hcx; subst hrep
      exact Or.inl ⟨Reply.ack, rfl, rfl,
        by simp [contractedEffect, h6, LED_ON, LED_OFF, COUNTER_SET,
          COUNTER_INC, COUNTER_DEC]⟩
    · have hz : cx.counter = 0 := by omega
      rw [route_counter_dec_zero self cx h6 hz] at h
      simp only [Option.some.injEq, Prod.mk.injEq] at h
      obtain ⟨-, hcx, hrep⟩ := h
      subst hcx; subst hrep
      exact Or.inr ⟨OUT_OF_BOUNDS, rfl, rfl⟩
  have hout : c.code ∉ deviceCodes := by
    simp only [deviceCodes, List.mem_cons, List.not_mem_nil, or_false, not_or]
    exact ⟨h1, h2, h3, h4, h5, h6⟩
  rw [route_default self cx hout] at h
  simp only [Option.some.injEq, Prod.mk.injEq] at h
  obtain ⟨-, hcx, hrep⟩ := h
  subst hcx; subst hrep
  exact Or.inr ⟨UNKNOWN_COMMAND, rfl, rfl⟩

/-- Witness for C4 at a successful increment from counter 7. -/
theorem C4_atomic_dispatch_witness :
    (∃ rep, some Reply.ack = some rep ∧ rep.isAck = true ∧
      DriveableResources.mk false 8 =
        contractedEffect ⟨COUNTER_INC, []⟩ ⟨false, 7⟩) ∨
    (∃ reason, some Reply.ack = some (Reply.nack reason) ∧
      DriveableResources.mk false 8 = DriveableResources.mk false 7) :=
  C4_atomic_dispatch CustomRouter.default ⟨false, 7⟩ ⟨COUNTER_INC, []⟩
    CustomRouter.default ⟨false, 8⟩ (some Reply.ack) rfl

/-- C7: the payload-less device commands (output-assert, output-deassert,
counter-get, counter-increment, counter-decrement) never read their
payload: two commands with the same such identifier but different
payloads dispatch to the same reply and the same final state. -/
theorem C7_payload_independence (self : CustomRouter)
    (cx : DriveableResources) (c c' : Command) (hcode : c.code = c'.code)
    (hmem : c.code ∈ [LED_ON, LED_OFF, COUNTER_GET, COUNTER_INC, COUNTER_DEC]) :
    self.route c cx = self.route c' cx := by
  simp only [List.mem_cons, List.not_mem_nil, or_false] at hmem
  rcases hmem with h | h | h | h | h
  · rw [route_led_on self cx h, route_led_on self cx (hcode.symm.trans h)]
  · rw [route_led_off self cx h, route_led_off self cx (hcode.symm.trans h)]
  · rw [route_counter_get self cx h,
      route_counter_get self cx (hcode.symm.trans h)]
  · by_cases hlt : cx.counter < 255
    · rw [route_counter_inc_lt self cx h hlt,
        route_counter_inc_lt self cx (hcode.symm.trans h) hlt]
    · have hge : 255 ≤ cx.counter := by omega
      rw [route_counter_inc_max self cx h hge,
        route_counter_inc_max self cx (hcode.symm.trans h) hge]
  · by_cases hpos : 0 < cx.counter
    · rw [route_counter_dec_pos self cx h hpos,
        route_counter_dec_pos self cx (hcode.symm.trans h) hpos]
    · have hz : cx.counter = 0 := by omega
      rw [route_counter_dec_zero self cx h hz,
        route_counter_dec_zero self cx (hcode.symm.trans h) hz]

/-- Witness for C7: output-assert with an empty and a 3-byte payload. -/
theorem C7_payload_independence_witness :
    CustomRouter.default.route ⟨LED_ON, []⟩ ⟨false, 0⟩ =
      CustomRouter.default.route ⟨LED_ON, [1, 2, 3]⟩ ⟨false, 0⟩ :=
  C7_payload_independence CustomRouter.default ⟨false, 0⟩
    ⟨LED_ON, []⟩ ⟨LED_ON, [1, 2, 3]⟩ rfl (by decide)

/-- C8: dispatch only mutates the resource its handler is contracted to:
identifiers outside the device table leave the resource set entirely
unchanged, LED commands never change the counter, counter commands never
change the LED, and Get-counter changes neither. -/
theorem C8_frame_conditions (self : CustomRouter) (cx : DriveableResources)
    (c : Command) (r' : CustomRouter) (cx' : DriveableResources)
    (reply : Option Reply) (h : self.route c cx = some (r', cx', reply)) :
    (c.code ∉ deviceCodes → cx' = cx) ∧
    ((c.code = LED_ON ∨ c.code = LED_OFF) → cx'.counter = cx.counter) ∧
    (c.code ∈ [COUNTER_GET, COUNTER_SET, COUNTER_INC, COUNTER_DEC] →
      cx'.led = cx.led) ∧
    (c.code = COUNTER_GET → cx' = cx) := by
  refine ⟨?_, ?_, ?_, ?_⟩
  · intro hout
    rw [route_default self cx hout] at h
    simp only [Option.some.injEq, Prod.mk.injEq] at h
    exact h.2.1.symm
  · rintro (h1 | h1)
    · rw [route_led_on self cx h1] at h
      simp only [Option.some.injEq, Prod.mk.injEq] at h
      rw [← h.2.1]
    · rw [route_led_off self cx h1] at h
      simp only [Option.some.injEq, Prod.mk.injEq] at h
      rw [← h.2.1]
  · intro hmem
    simp only [List.mem_cons, List.not_mem_nil, or_false] at hmem
    rcases hmem with h1 | h1 | h1 | h1
    · rw [route_counter_get self cx h1] at h
      simp only [Option.some.injEq, Prod.mk.injEq] at h
      rw [← h.2.1]
    · by_cases hlen : c.length = 1
      · rw [route_counter_set_one self cx h1 hlen] at h
        simp only [Option.some.injEq, Prod.mk.injEq] at h
        rw [← h.2.1]
      · rw [route_counter_set_bad self cx h1 hlen] at h
        simp only [Option.some.injEq, Prod.mk.injEq] at h
        rw [← h.2.1]
    · by_cases hlt : cx.counter < 255
      · rw [route_counter_inc_lt self cx h1 hlt] at h
        simp only [Option.some.injEq, Prod.mk.injEq] at h
        rw [← h.2.1]
      · have hge : 255 ≤ cx.counter := by omega
        rw [route_counter_inc_max self cx h1 hge] at h
        simp only [Option.some.injEq, Prod.mk.injEq] at h
        rw [← h.2.1]
    · by_cases hpos : 0 < cx.counter
      · rw [route_counter_dec_pos self cx h1 hpos] at h
        simp only [Option.some.injEq, Prod.mk.injEq] at h
        rw [← h.2.1]
      · have hz : cx.counter = 0 := by omega
        rw [route_counter_dec_zero self cx h1 hz] at h
        simp only [Option.some.injEq, Prod.mk.injEq] at h
        rw [← h.2.1]
  · intro h1
    rw [route_counter_get self cx h1] at h
    simp only [Option.some.injEq, Prod.mk.injEq] at h
    exact h.2.1.symm

/-- Witness for C8 at the unknown identifier `0x99`. -/
theorem C8_frame_conditions_witness :
    DriveableResources.mk false 7 = DriveableResources.mk false 7 :=
  (C8_frame_conditions CustomRouter.default ⟨false, 7⟩ ⟨0x99, []⟩
    CustomRouter.default ⟨false, 7⟩ (some (Reply.nack UNKNOWN_COMMAND))
    rfl).1 (by decide)

/-- C9: output-assert and output-deassert are idempotent: dispatching the
same one of them twice in a row returns ACK both times, and the line
state after the second dispatch equals the state after the first. -/
theorem C9_led_idempotent (s : CustomRouter × DriveableResources)
    (c : Command) (hc : c.code = LED_ON ∨ c.code = LED_OFF) :
    ∃ s1 s2 : CustomRouter × DriveableResources,
      dispatch s c = some (s1, some Reply.ack) ∧
      dispatch s1 c = some (s2, some Reply.ack) ∧
      s2.2.led = s1.2.led := by
  rcases hc with h | h
  · exact ⟨(s.1, { s.2 with led := true }), (s.1, { s.2 with led := true }),
      by simp [dispatch, route_led_on s.1 s.2 h],
      by simp [dispatch, route_led_on s.1 { s.2 with led := true } h], rfl⟩
  · exact ⟨(s.1, { s.2 with led := false }), (s.1, { s.2 with led := false }),
      by simp [dispatch, route_led_off s.1 s.2 h],
      by simp [dispatch, route_led_off s.1 { s.2 with led := false } h], rfl⟩

/-- Witness for C9: output-assert issued twice from the initial state. -/
theorem C9_led_idempotent_witness :
    ∃ s1 s2 : CustomRouter × DriveableResources,
      dispatch (CustomRouter.default, DriveableResources.new false)
        ⟨LED_ON, []⟩ = some (s1, some Reply.ack) ∧
      dispatch s1 ⟨LED_ON, []⟩ = some (s2, some Reply.ack) ∧
      s2.2.led = s1.2.led :=
  C9_led_idempotent (CustomRouter.default, DriveableResources.new false)
    ⟨LED_ON, []⟩ (Or.inl rfl)

/-- The round-trip scenario exactly as the specification states it:
counter-set(5), counter-get, 251 counter-increments, then one
counter-decrement. -/
def c5Commands : List Command :=
  ⟨COUNTER_SET, [5]⟩ :: ⟨COUNTER_GET, []⟩ ::
    (List.replicate 251 (⟨COUNTER_INC, []⟩ : Command) ++
      [(⟨COUNTER_DEC, []⟩ : Command)])

set_option maxRecDepth 4000 in
/-- C5 counterexample: running the specification's round-trip scenario
from the startup state, the 251 consecutive increments after
counter-set(5) do NOT all return ACK: counter 5 reaches 255 after only
250 increments, so the 251st increment (reply index 252) returns
NACK(`0xFF`). -/
theorem C5_roundtrip_counterexample :
    (runCommands (CustomRouter.default, DriveableResources.new false)
        c5Commands).map
      (fun out =>
        (((out.2.drop 2).take 251).all (fun rep => rep == some Reply.ack),
          out.2.getD 252 none)) =
      some (false, some (Reply.nack OUT_OF_BOUNDS)) := by
  decide

/-- The amended round-trip scenario: counter-set(5), counter-get, 250
counter-increments, one further counter-increment, one
counter-decrement. -/
def c5AmendedCommands : List Command :=
  ⟨COUNTER_SET, [5]⟩ :: ⟨COUNTER_GET, []⟩ ::
    (List.replicate 250 (⟨COUNTER_INC, []⟩ : Command) ++
      [(⟨COUNTER_INC, []⟩ : Command), (⟨COUNTER_DEC, []⟩ : Command)])

set_option maxRecDepth 8000 in
set_option maxHeartbeats 4000000 in
/-- C5 (amended): from any starting state, counter-set(5) returns ACK;
counter-get returns the acknowledgement with payload `[5]`; 250
consecutive counter-increments each return ACK and leave the counter at
255; one more counter-increment returns NACK(`0xFF`); one
counter-decrement then returns ACK and leaves the counter at 254. -/
theorem C5_amended_roundtrip (self : CustomRouter) (cx : DriveableResources) :
    (runCommands (self, cx) c5AmendedCommands).map
        (fun out => (out.2, out.1.2.counter)) =
      some (some Reply.ack :: some (Reply.cmd COUNTER_GET_REPLY [5]) ::
          (List.replicate 250 (some Reply.ack) ++
            [some (Reply.nack OUT_OF_BOUNDS), some Reply.ack]), 254) ∧
    (runCommands (self, cx) (c5AmendedCommands.take 252)).map
        (fun out => out.1.2.counter) = some 255 := by
  exact ⟨rfl, rfl⟩
